import Mathlib

/-
Shallow embedding of release_pipeline.py: a SageMaker pipeline definition
for a credit-risk model. The script only constructs configuration records
(parameters, steps, a condition, a pipeline) and makes two remote calls
(upsert, start). We embed the configuration records as Lean structures and
the constructed objects as functions of the session-derived strings
(bucket, region, role).
-/

namespace ReleasePipeline

/-- A pipeline parameter value: ParameterString carries a string default,
ParameterFloat a numeric default (modelled over the rationals). -/
inductive ParamValue where
  | str (s : String)
  | flt (q : ℚ)
deriving DecidableEq

/-- A named, typed, externally overridable pipeline parameter. -/
structure Parameter where
  name : String
  default_value : ParamValue
deriving DecidableEq

/-- An S3 location as it appears in a step input: either a literal URI, a
reference to a pipeline parameter, a reference to another step's named
processing output (Properties.ProcessingOutputConfig.Outputs[name].S3Output.S3Uri),
or a reference to a training step's model artifacts
(Properties.ModelArtifacts.S3ModelArtifacts). -/
inductive S3Ref where
  | literal (uri : String)
  | param (p : Parameter)
  | stepOutput (stepName outputName : String)
  | modelArtifacts (stepName : String)
deriving DecidableEq

/-- sagemaker.processing.ProcessingInput: a source location mounted at a
container destination path. -/
structure ProcessingInput where
  source : S3Ref
  destination : String
deriving DecidableEq

/-- sagemaker.processing.ProcessingOutput: a named output channel from a
container source path to an S3 destination. -/
structure ProcessingOutput where
  output_name : String
  source : String
  destination : String
deriving DecidableEq

/-- sagemaker.processing.ScriptProcessor configuration. -/
structure ScriptProcessor where
  image_uri : String
  command : List String
  instance_type : String
  instance_count : Nat
  role : String
deriving DecidableEq

/-- A hyperparameter value as passed to Estimator.set_hyperparameters. -/
inductive HPValue where
  | str (s : String)
  | nat (n : Nat)
  | rat (q : ℚ)
deriving DecidableEq

/-- sagemaker.estimator.Estimator configuration, after
set_hyperparameters has been applied. -/
structure Estimator where
  image_uri : String
  role : String
  instance_count : Nat
  instance_type : String
  output_path : String
  hyperparameters : List (String × HPValue)
deriving DecidableEq

/-- sagemaker.workflow.properties.PropertyFile: a named pointer to a
structured result file on a step's output channel. -/
structure PropertyFile where
  name : String
  output_name : String
  path : String
deriving DecidableEq

/-- An operand of a workflow condition: either a JSON-path query against a
property file (PropertyFile.prop of a path) or a pipeline parameter. -/
inductive CondOperand where
  | propRef (pf : PropertyFile) (jsonPath : String)
  | param (p : Parameter)
deriving DecidableEq

/-- sagemaker.workflow.conditions.ConditionGreaterThanOrEqualTo: a
greater-than-or-equal comparison of two operands. -/
structure ConditionGte where
  left : CondOperand
  right : CondOperand
deriving DecidableEq

/-- A pipeline step: ProcessingStep, TrainingStep, ConditionStep or
RegisterModel, each carrying the configuration the script passes to it. -/
inductive Step where
  | processing (name : String) (processor : ScriptProcessor)
      (inputs : List ProcessingInput) (outputs : List ProcessingOutput)
      (code : String) (property_files : List PropertyFile)
  | training (name : String) (estimator : Estimator)
      (inputs : List (String × S3Ref))
  | condition (name : String) (conditions : List ConditionGte)
      (if_steps else_steps : List Step)
  | register (name : String) (estimator : Estimator)
      (model_package_group_name approval_status : String)

/-- sagemaker.workflow.pipeline.Pipeline: the top-level record aggregating
parameters and an ordered step list. -/
structure Pipeline where
  name : String
  parameters : List Parameter
  steps : List Step

/-- Modelled from the spec: the SDK container-image lookup
(sagemaker.image_uris.retrieve) is not part of this repository; it is an
opaque deterministic function of framework, region and version. -/
def image_uris_retrieve (framework region version : String) : String :=
  framework ++ "/" ++ version ++ "/" ++ region

/-- The InputDataUrl parameter (release_pipeline.py lines 21-24). -/
def input_data (bucket : String) : Parameter :=
  { name := "InputDataUrl",
    default_value := .str ("s3://" ++ bucket ++ "/credit-risk/raw/data.csv") }

/-- The AccuracyThreshold parameter (lines 26-29). -/
def accuracy_threshold : Parameter :=
  { name := "AccuracyThreshold", default_value := .flt 0.75 }

/-- The shared ScriptProcessor (lines 34-40). -/
def processor (region role : String) : ScriptProcessor :=
  { image_uri := image_uris_retrieve "sklearn" region "1.0-1",
    command := ["python3"],
    instance_type := "ml.m5.large",
    instance_count := 1,
    role := role }

/-- The PreprocessData ProcessingStep (lines 42-64). -/
def processing_step (bucket region role : String) : Step :=
  .processing "PreprocessData" (processor region role)
    [⟨.param (input_data bucket), "/opt/ml/processing/input"⟩]
    [⟨"train", "/opt/ml/processing/train",
      "s3://" ++ bucket ++ "/credit-risk/processed/train"⟩,
     ⟨"test", "/opt/ml/processing/test",
      "s3://" ++ bucket ++ "/credit-risk/processed/test"⟩]
    "scripts/preprocess.py"
    []

/-- The XGBoost Estimator with its hyperparameters (lines 69-82). -/
def estimator (bucket region role : String) : Estimator :=
  { image_uri := image_uris_retrieve "xgboost" region "1.5-1",
    role := role,
    instance_count := 1,
    instance_type := "ml.m5.large",
    output_path := "s3://" ++ bucket ++ "/credit-risk/models",
    hyperparameters :=
      [("objective", .str "binary:logistic"),
       ("num_round", .nat 200),
       ("max_depth", .nat 5),
       ("eta", .rat 0.2)] }

/-- The TrainModel TrainingStep (lines 84-92). -/
def training_step (bucket region role : String) : Step :=
  .training "TrainModel" (estimator bucket region role)
    [("train", .stepOutput "PreprocessData" "train")]

/-- The EvaluationReport PropertyFile (lines 97-101). -/
def evaluation_report : PropertyFile :=
  { name := "EvaluationReport", output_name := "evaluation",
    path := "evaluation.json" }

/-- The EvaluateModel ProcessingStep (lines 103-127). -/
def evaluation_step (bucket region role : String) : Step :=
  .processing "EvaluateModel" (processor region role)
    [⟨.modelArtifacts "TrainModel", "/opt/ml/processing/model"⟩,
     ⟨.stepOutput "PreprocessData" "test", "/opt/ml/processing/test"⟩]
    [⟨"evaluation", "/opt/ml/processing/evaluation",
      "s3://" ++ bucket ++ "/credit-risk/evaluation"⟩]
    "scripts/evaluate.py"
    [evaluation_report]

/-- The AccuracyCheck ConditionStep (lines 132-142); note that both branch
lists are empty in the source. -/
def cond_step : Step :=
  .condition "AccuracyCheck"
    [⟨.propRef evaluation_report "metrics.accuracy", .param accuracy_threshold⟩]
    [] []

/-- The RegisterModel step collection (lines 147-152). -/
def register_step (bucket region role : String) : Step :=
  .register "RegisterModel" (estimator bucket region role)
    "CreditRiskModelGroup" "PendingManualApproval"

/-- The CreditRiskPipeline record (lines 157-167). -/
def pipeline (bucket region role : String) : Pipeline :=
  { name := "CreditRiskPipeline",
    parameters := [input_data bucket, accuracy_threshold],
    steps := [processing_step bucket region role,
              training_step bucket region role,
              evaluation_step bucket region role,
              cond_step,
              register_step bucket region role] }

/-- The AccuracyThreshold parameter generalised over its default value, for
stating the frame property of changing the 0.75 literal on line 28. -/
def accuracy_threshold_with (t : ℚ) : Parameter :=
  { name := "AccuracyThreshold", default_value := .flt t }

/-- The AccuracyCheck step as a function of the threshold default. -/
def cond_step_with (t : ℚ) : Step :=
  .condition "AccuracyCheck"
    [⟨.propRef evaluation_report "metrics.accuracy",
      .param (accuracy_threshold_with t)⟩]
    [] []

/-- The pipeline as a function of the threshold default. -/
def pipeline_with (bucket region role : String) (t : ℚ) : Pipeline :=
  { name := "CreditRiskPipeline",
    parameters := [input_data bucket, accuracy_threshold_with t],
    steps := [processing_step bucket region role,
              training_step bucket region role,
              evaluation_step bucket region role,
              cond_step_with t,
              register_step bucket region role] }

/-- The name of a step. -/
def Step.stepName : Step → String
  | .processing n _ _ _ _ _ => n
  | .training n _ _ => n
  | .condition n _ _ _ => n
  | .register n _ _ _ => n

/-- The output channels a step declares (only processing steps declare
named outputs). -/
def Step.declaredOutputs : Step → List String
  | .processing _ _ _ outs _ _ => outs.map (·.output_name)
  | _ => []

/-- Whether a step is a training step (and hence produces model
artifacts). -/
def Step.isTraining : Step → Bool
  | .training _ _ _ => true
  | _ => false

/-- The S3 references appearing among a step's inputs. -/
def Step.inputRefs : Step → List S3Ref
  | .processing _ _ ins _ _ _ => ins.map (·.source)
  | .training _ _ ins => ins.map (·.2)
  | _ => []

/-- The conditions of a condition step. -/
def Step.conditionsOf : Step → List ConditionGte
  | .condition _ cs _ _ => cs
  | _ => []

/-- The then-branch of a condition step. -/
def Step.ifStepsOf : Step → List Step
  | .condition _ _ ifs _ => ifs
  | _ => []

/-- The else-branch of a condition step. -/
def Step.elseStepsOf : Step → List Step
  | .condition _ _ _ els => els
  | _ => []

/-- The property files a processing step registers. -/
def Step.propertyFilesOf : Step → List PropertyFile
  | .processing _ _ _ _ _ pfs => pfs
  | _ => []

/-- The processor of a step, when it is a processing step. -/
def Step.processorOf : Step → Option ScriptProcessor
  | .processing _ p _ _ _ _ => some p
  | _ => none

/-- Look a step up by name in a step list. -/
def findStep (steps : List Step) (n : String) : Option Step :=
  steps.find? (fun s => s.stepName == n)

/-- Whether an S3 reference is resolvable against a step list: a step
output reference must name an output the referenced step declares, a model
artifact reference must name a training step. -/
def refValid (steps : List Step) : S3Ref → Bool
  | .literal _ => true
  | .param _ => true
  | .stepOutput sn outName =>
      match findStep steps sn with
      | some s => s.declaredOutputs.contains outName
      | none => false
  | .modelArtifacts sn =>
      match findStep steps sn with
      | some s => s.isTraining
      | none => false

/-- Whether a step list has no dangling inter-step references. -/
def noDanglingRefs (steps : List Step) : Bool :=
  steps.all (fun s => s.inputRefs.all (refValid steps))

/-- A remote-control call the script makes against the workflow service. -/
inductive RemoteCall where
  | upsertCall
  | startCall
deriving DecidableEq

/-- Modelled from the spec: the tail of the script executes
pipeline.upsert then pipeline.start (lines 169-170) with no exception
handling, so a failing SDK call terminates the script at once; later
calls are not attempted and nothing is retried. The two Booleans say
whether each remote call would succeed; the result is the list of calls
the script issues, in order, paired with whether it ran to completion. -/
def run_script (upsert_ok start_ok : Bool) : List RemoteCall × Bool :=
  if upsert_ok then
    if start_ok then ([.upsertCall, .startCall], true)
    else ([.upsertCall, .startCall], false)
  else ([.upsertCall], false)

/-- Modelled from the spec: runtime satisfaction of the SDK condition
ConditionGreaterThanOrEqualTo — it holds exactly when the left value is
greater than or equal to the right value. -/
def condGteHolds (l r : ℚ) : Bool := decide (r ≤ l)

/-- The default-value URIs a parameter contributes (string defaults only). -/
def paramDefaultUris (p : Parameter) : List String :=
  match p.default_value with
  | .str s => [s]
  | .flt _ => []

/-- The S3 URIs a step construction writes into its configuration:
processing output destinations and estimator output paths. -/
def Step.s3Uris : Step → List String
  | .processing _ _ _ outs _ _ => outs.map (·.destination)
  | .training _ e _ => [e.output_path]
  | .condition _ _ _ _ => []
  | .register _ e _ _ => [e.output_path]

/-- Every S3 URI the script constructs: parameter defaults plus the URIs
inside the steps. -/
def pipeline_s3_uris (bucket region role : String) : List String :=
  ((pipeline bucket region role).parameters.map paramDefaultUris).flatten ++
  ((pipeline bucket region role).steps.map Step.s3Uris).flatten

/-- Helper: splitting a string append along a concrete decomposition of
its right part. -/
theorem append_split (x s t u : String) (h : s ++ t = u) :
    x ++ u = (x ++ s) ++ t := by
  rw [String.append_assoc, h]

/-- C1: the claim asserts the model-registration step is reached through a
branch of the AccuracyCheck condition step. In the code both branch lists
of the condition step are empty, the register step appears in neither, and
it is instead the unconditional fifth top-level step of the pipeline. -/
theorem register_step_not_gated (bucket region role : String) :
    Step.ifStepsOf cond_step = [] ∧
    Step.elseStepsOf cond_step = [] ∧
    register_step bucket region role ∉ Step.ifStepsOf cond_step ∧
    register_step bucket region role ∉ Step.elseStepsOf cond_step ∧
    (pipeline bucket region role).steps.getLast? =
      some (register_step bucket region role) ∧
    (pipeline bucket region role).steps.length = 5 := by
  refine ⟨rfl, rfl, ?_, ?_, rfl, rfl⟩ <;> exact List.not_mem_nil _

/-- C2: the step list has no dangling inter-step references: the training
step's single "train" input references the preprocessing step's declared
"train" output, and the evaluation step's inputs reference the training
step's model artifacts and the preprocessing step's declared "test"
output; the global checker accepts the whole step list. -/
theorem no_dangling_refs (bucket region role : String) :
    noDanglingRefs (pipeline bucket region role).steps = true ∧
    Step.inputRefs (training_step bucket region role) =
      [.stepOutput "PreprocessData" "train"] ∧
    Step.declaredOutputs (processing_step bucket region role) =
      ["train", "test"] ∧
    Step.inputRefs (evaluation_step bucket region role) =
      [.modelArtifacts "TrainModel", .stepOutput "PreprocessData" "test"] ∧
    Step.isTraining (training_step bucket region role) = true := by
  exact ⟨rfl, rfl, rfl, rfl, rfl⟩

/-- C3: the pipeline record is named CreditRiskPipeline, aggregates exactly
the two parameters InputDataUrl (a string input-data location) and
AccuracyThreshold (a float defaulting to 0.75), and exactly five steps in
the order preprocess, train, evaluate, condition check, register. -/
theorem pipeline_shape (bucket region role : String) :
    (pipeline bucket region role).name = "CreditRiskPipeline" ∧
    (pipeline bucket region role).parameters =
      [⟨"InputDataUrl",
        .str ("s3://" ++ bucket ++ "/credit-risk/raw/data.csv")⟩,
       ⟨"AccuracyThreshold", .flt 0.75⟩] ∧
    (pipeline bucket region role).parameters.length = 2 ∧
    (pipeline bucket region role).steps.map Step.stepName =
      ["PreprocessData", "TrainModel", "EvaluateModel", "AccuracyCheck",
       "RegisterModel"] ∧
    (pipeline bucket region role).steps.length = 5 := by
  exact ⟨rfl, rfl, rfl, rfl, rfl⟩

/-- C4: the gate reads exactly one structured result: its single condition
has as left operand the JSON property path metrics.accuracy of the
property file evaluation.json on the evaluation step's "evaluation" output
channel, and as right operand the AccuracyThreshold parameter. -/
theorem gate_reads_one_property (bucket region role : String) :
    Step.conditionsOf cond_step =
      [⟨.propRef evaluation_report "metrics.accuracy",
        .param accuracy_threshold⟩] ∧
    evaluation_report.output_name = "evaluation" ∧
    evaluation_report.path = "evaluation.json" ∧
    Step.declaredOutputs (evaluation_step bucket region role) =
      ["evaluation"] ∧
    Step.propertyFilesOf (evaluation_step bucket region role) =
      [evaluation_report] ∧
    accuracy_threshold.name = "AccuracyThreshold" := by
  exact ⟨rfl, rfl, rfl, rfl, rfl, rfl⟩

/-- C5: the script issues exactly the two remote calls upsert then start
when both succeed; a failed upsert stops the script after the single
upsert call, a failed start stops it after the two calls; in every case
the issued calls are an unrepeated prefix of upsert-then-start, so there
is no retry or recovery. -/
theorem two_remote_calls_no_recovery :
    (run_script true true).1 = [RemoteCall.upsertCall, RemoteCall.startCall] ∧
    (run_script true true).2 = true ∧
    (∀ b, (run_script false b).1 = [RemoteCall.upsertCall] ∧
          (run_script false b).2 = false) ∧
    (run_script true false).1 =
      [RemoteCall.upsertCall, RemoteCall.startCall] ∧
    (run_script true false).2 = false ∧
    (∀ u s, ((run_script u s).1 =
               [RemoteCall.upsertCall, RemoteCall.startCall] ∨
             (run_script u s).1 = [RemoteCall.upsertCall]) ∧
            (run_script u s).1.Nodup) := by
  decide

/-- C6: changing the default of the AccuracyThreshold parameter changes
only the gate's comparison input: the pipeline at default 0.75 is the
source pipeline; for any two defaults the name, step names, the first
three steps, the final step, the first parameter, and the condition step's
name, branch lists and left operand all coincide, while the right operand
is exactly the threshold parameter with the chosen default. -/
theorem threshold_default_frame (bucket region role : String) (t t2 : ℚ) :
    pipeline_with bucket region role 0.75 = pipeline bucket region role ∧
    (pipeline_with bucket region role t).name =
      (pipeline_with bucket region role t2).name ∧
    (pipeline_with bucket region role t).steps.map Step.stepName =
      (pipeline_with bucket region role t2).steps.map Step.stepName ∧
    (pipeline_with bucket region role t).steps.take 3 =
      (pipeline_with bucket region role t2).steps.take 3 ∧
    (pipeline_with bucket region role t).steps.drop 4 =
      (pipeline_with bucket region role t2).steps.drop 4 ∧
    (pipeline_with bucket region role t).parameters.take 1 =
      (pipeline_with bucket region role t2).parameters.take 1 ∧
    (pipeline_with bucket region role t).steps.get? 3 =
      some (cond_step_with t) ∧
    Step.stepName (cond_step_with t) = Step.stepName (cond_step_with t2) ∧
    Step.ifStepsOf (cond_step_with t) = Step.ifStepsOf (cond_step_with t2) ∧
    Step.elseStepsOf (cond_step_with t) =
      Step.elseStepsOf (cond_step_with t2) ∧
    (Step.conditionsOf (cond_step_with t)).map ConditionGte.left =
      (Step.conditionsOf (cond_step_with t2)).map ConditionGte.left ∧
    (Step.conditionsOf (cond_step_with t)).map ConditionGte.right =
      [.param (accuracy_threshold_with t)] := by
  exact ⟨rfl, rfl, rfl, rfl, rfl, rfl, rfl, rfl, rfl, rfl, rfl, rfl⟩

/-- C7: pipeline construction is deterministic: two constructions from the
same session-derived bucket, region and role yield the same pipeline
definition (same name, same parameters, same steps in the same order). -/
theorem pipeline_deterministic (b1 r1 ro1 b2 r2 ro2 : String)
    (hb : b1 = b2) (hr : r1 = r2) (hro : ro1 = ro2) :
    pipeline b1 r1 ro1 = pipeline b2 r2 ro2 := by
  subst hb hr hro
  rfl

/-- Witness for C7 at concrete session values. -/
theorem pipeline_deterministic_witness :
    pipeline "my-bucket" "us-east-1" "my-role" =
      pipeline "my-bucket" "us-east-1" "my-role" :=
  pipeline_deterministic "my-bucket" "us-east-1" "my-role"
    "my-bucket" "us-east-1" "my-role" rfl rfl rfl

/-- C8: one processor configuration (the sklearn image from the SDK
lookup, command python3, instance type ml.m5.large, one instance) is
shared by exactly two steps: mapping each pipeline step to its processor
yields that processor for the preprocessing and evaluation steps and none
for the other three. -/
theorem shared_processor (bucket region role : String) :
    (pipeline bucket region role).steps.map Step.processorOf =
      [some (processor region role), none, some (processor region role),
       none, none] ∧
    (processor region role).image_uri =
      image_uris_retrieve "sklearn" region "1.0-1" ∧
    (processor region role).command = ["python3"] ∧
    (processor region role).instance_type = "ml.m5.large" ∧
    (processor region role).instance_count = 1 := by
  exact ⟨rfl, rfl, rfl, rfl, rfl⟩

/-- C9: every S3 URI the script constructs (the default input data, the
processed train and test destinations, the model artifact output path,
the evaluation report destination) lies under the single project prefix
s3://bucket/credit-risk/. -/
theorem uris_under_project_prefix (bucket region role : String) :
    List.Forall
      (fun u => ∃ rest, u = ("s3://" ++ bucket ++ "/credit-risk/") ++ rest)
      (pipeline_s3_uris bucket region role) := by
  refine ⟨⟨"raw/data.csv", ?_⟩, ⟨"processed/train", ?_⟩,
    ⟨"processed/test", ?_⟩, ⟨"models", ?_⟩, ⟨"evaluation", ?_⟩,
    ⟨"models", ?_⟩⟩ <;>
    exact append_split _ "/credit-risk/" _ _ (by decide)

/-- C10: the accuracy gate's comparison is inclusive: the condition step
carries a greater-than-or-equal comparison, whose runtime satisfaction
holds exactly when the threshold is less than or equal to the accuracy;
in particular an accuracy exactly equal to the threshold (such as the
default 0.75) satisfies it, so strict inequality is not required. -/
theorem gate_comparison_inclusive :
    Step.conditionsOf cond_step =
      [⟨.propRef evaluation_report "metrics.accuracy",
        .param accuracy_threshold⟩] ∧
    (∀ a t : ℚ, condGteHolds a t = true ↔ t ≤ a) ∧
    (∀ t : ℚ, condGteHolds t t = true) ∧
    condGteHolds 0.75 0.75 = true := by
  refine ⟨rfl, fun a t => ?_, fun t => ?_, by simp [condGteHolds]⟩
  · simp [condGteHolds]
  · simp [condGteHolds]

end ReleasePipeline
